import Mathlib

/-!
Verification of the snipsage demo program (src/demo.py).

The program is embedded shallowly:

* `Logger.log` writes the line `f"{time.ctime()}: {message}\n"`; the
  timestamp string captured at call time is passed as a parameter
  (`logLine`).  The singleton metaclass machinery is modelled by
  `singletonCall`, explicit state passing of the instance table
  (specialised to the only class using it, `Logger`).
* The decorator `retry(retries, delay)` loops
  `for attempt in range(1, retries + 1)`, returning the wrapped
  function's value on success, logging `"Attempt {attempt} failed: {e}"`
  on an exception, re-raising on the last attempt and sleeping otherwise.
  It is embedded as `retryLoop` / `retryExec`: the wrapped operation is a
  function from the attempt number to an `Except` outcome (plus the log
  records the operation itself writes); `RetryOutcome.result = none`
  models the `None` that Python returns when the loop body never runs
  (`retries ≤ 0`), and `calls` counts the invocations of the operation.
  The `time.sleep(delay)` only suspends the calling thread and has no
  effect on values or logs, so it has no counterpart here.
* `DataProcessor.process` raises `ValueError("Unlucky number!")` when
  `data % 13 == 0`, otherwise logs `"Processed: {data}"` and returns
  `data ** 2`; it is decorated with `@retry(retries=2)`
  (`processAttempt`, `process`).  Python's `%` on a positive modulus
  agrees with `Int.emod`.
* `DataProcessor.run` starts one thread per value; each thread runs
  `task`, which catches any exception from `process val`, logs
  `"Failed processing {val}: {e}"`, and otherwise appends the result to
  the shared list.  `run` joins all threads and returns the list.  The
  embedding (`task`, `run`) is sequential in submission order: thread
  scheduling only permutes the order of `results` and of the log lines,
  and every property proved below is order-insensitive (lengths, counts,
  membership).
-/

namespace Snipsage

/-- Outcome of one execution of the function produced by the `retry`
decorator: the value (`some (Except.ok v)` for a normal return,
`some (Except.error e)` for the exception re-raised on the final attempt,
`none` for Python's implicit `None` when the loop body never runs), the
log records written during the execution, and how many times the wrapped
operation was invoked. -/
structure RetryOutcome (α : Type) where
  result : Option (Except String α)
  log : List String
  calls : Nat
  deriving Repr

/-- The record the retry wrapper logs for a failed attempt:
`f"Attempt {attempt} failed: {str(e)}"`. -/
def attemptMsg (attempt : Nat) (e : String) : String :=
  "Attempt " ++ toString attempt ++ " failed: " ++ e

/-- The loop `for attempt in range(1, retries + 1)` of `retry.wrapper.inner`.
`attempt` is the current attempt number and the second argument the number
of loop iterations still available (`retries - attempt + 1`); the wrapped
operation `op` maps the attempt number to its outcome together with the
log records it writes itself during that invocation. -/
def retryLoop (op : Nat → Except String α × List String) (attempt : Nat) :
    Nat → RetryOutcome α
  | 0 => ⟨none, [], 0⟩
  | remaining + 1 =>
    match op attempt with
    | (Except.ok v, lg) => ⟨some (Except.ok v), lg, 1⟩
    | (Except.error e, lg) =>
      if remaining = 0 then
        ⟨some (Except.error e), lg ++ [attemptMsg attempt e], 1⟩
      else
        let rest := retryLoop op (attempt + 1) remaining
        ⟨rest.result, lg ++ attemptMsg attempt e :: rest.log, rest.calls + 1⟩

/-- A fallible operation that writes no log records of its own. -/
def pureOp (op : Nat → Except String α) : Nat → Except String α × List String :=
  fun i => (op i, [])

/-- `retry(retries, delay)(func)()` for an operation that does no logging
of its own.  `retries` is a Python `int`, so it may be non-positive, in
which case `range(1, retries + 1)` is empty. -/
def retryExec (op : Nat → Except String α) (retries : Int) : RetryOutcome α :=
  retryLoop (pureOp op) 1 retries.toNat

/-- One attempt of `DataProcessor.process`: raise `ValueError` for
multiples of 13, otherwise log a success record and return the square.
The body does not read the attempt number. -/
def processAttempt (data : Int) (_attempt : Nat) : Except String Int × List String :=
  if data % 13 = 0 then (Except.error "Unlucky number!", [])
  else (Except.ok (data * data), ["Processed: " ++ toString data])

/-- `DataProcessor.process`: the attempt body wrapped by
`@retry(retries=2)`. -/
def process (data : Int) : RetryOutcome Int :=
  retryLoop (processAttempt data) 1 ((2 : Int)).toNat

/-- The record `task` logs when `process` raises:
`f"Failed processing {val}: {e}"`. -/
def failMsg (data : Int) (e : String) : String :=
  "Failed processing " ++ toString data ++ ": " ++ e

/-- The per-item closure `task` inside `DataProcessor.run`: run
`process val`; on a normal return append the value to the results, on an
exception log the failure record instead.  (The `none` branch — `process`
returning Python's `None` — never occurs, since the decorator is applied
with `retries = 2`; Python would append `None` to the results there.) -/
def task (data : Int) : Option Int × List String :=
  match (process data).result with
  | some (Except.ok v) => (some v, (process data).log)
  | some (Except.error e) => (none, (process data).log ++ [failMsg data e])
  | none => (none, (process data).log)

/-- `DataProcessor.run`: one thread per value, each running `task`;
results and log records collected in submission order (scheduling only
permutes them; the proved properties are order-insensitive). -/
def run : List Int → List Int × List String
  | [] => ([], [])
  | v :: rest =>
    let r := task v
    let rs := run rest
    (match r.1 with
     | some x => x :: rs.1
     | none => rs.1,
     r.2 ++ rs.2)

/-- The line `Logger.log` appends for one record:
`f"{time.ctime()}: {message}\n"`, with the timestamp string captured at
the time of the call passed in as `timestamp`. -/
def logLine (timestamp message : String) : String :=
  timestamp ++ ": " ++ message ++ "\n"

/-- A `Logger` instance: its only data is the file path given to
`__init__`. -/
structure Logger where
  filepath : String
  deriving Repr, DecidableEq

/-- `SingletonMeta.__call__` specialised to `Logger`: the instance table
is `none` (no instance yet) or `some l`; a call constructs a new instance
only when the table is empty, otherwise it returns the stored instance
and ignores its argument. -/
def singletonCall (instances : Option Logger) (filepath : String) :
    Option Logger × Logger :=
  match instances with
  | some l => (some l, l)
  | none => (some ⟨filepath⟩, ⟨filepath⟩)

/-- The instance table after a sequence of `Logger(fp)` construction
calls, starting from the empty table. -/
def singletonCalls (fps : List String) : Option Logger :=
  fps.foldl (fun st fp => (singletonCall st fp).1) none

/-- A concrete operation failing exactly on attempt 1 and succeeding
afterwards, used to instantiate the retry theorems. -/
def opFailOnce : Nat → Except String Int := fun i =>
  if i ≤ 1 then Except.error "boom" else Except.ok 7

/-- A concrete operation failing on every attempt. -/
def alwaysFailOp : Nat → Except String Int := fun _ => Except.error "boom"

/-- A concrete operation succeeding on every attempt. -/
def opConst : Nat → Except String Int := fun _ => Except.ok 0

/-! ### Characterisations of `process`, `task` and `run` -/

theorem process_of_div (data : Int) (h : data % 13 = 0) :
    process data =
      ⟨some (Except.error "Unlucky number!"),
       [attemptMsg 1 "Unlucky number!", attemptMsg 2 "Unlucky number!"], 2⟩ := by
  simp [process, retryLoop, processAttempt, h]

theorem process_of_ok (data : Int) (h : ¬ data % 13 = 0) :
    process data =
      ⟨some (Except.ok (data * data)), ["Processed: " ++ toString data], 1⟩ := by
  simp [process, retryLoop, processAttempt, h]

theorem task_of_div (data : Int) (h : data % 13 = 0) :
    task data =
      (none,
       [attemptMsg 1 "Unlucky number!", attemptMsg 2 "Unlucky number!",
        failMsg data "Unlucky number!"]) := by
  simp [task, process_of_div data h]

theorem task_of_ok (data : Int) (h : ¬ data % 13 = 0) :
    task data = (some (data * data), ["Processed: " ++ toString data]) := by
  simp [task, process_of_ok data h]

theorem run_fst (values : List Int) :
    (run values).1 =
      (values.filter fun v => decide (v % 13 ≠ 0)).map fun v => v * v := by
  induction values with
  | nil => rfl
  | cons v rest ih =>
    by_cases h : v % 13 = 0
    · have hd : (decide (v % 13 ≠ 0)) = false := by simp [h]
      simp only [run, task_of_div v h, List.filter_cons, hd, Bool.false_eq_true,
        if_false]
      exact ih
    · have hd : (decide (v % 13 ≠ 0)) = true := by simp [h]
      simp only [run, task_of_ok v h, List.filter_cons, hd, if_true,
        List.map_cons]
      exact congrArg (v * v :: ·) ih

theorem mem_run_logs (values : List Int) (v : Int) (hv : v ∈ values)
    (m : String) (hm : m ∈ (task v).2) : m ∈ (run values).2 := by
  induction values with
  | nil => cases hv
  | cons w rest ih =>
    rcases List.mem_cons.mp hv with h | h
    · subst h
      simp [run]
      exact Or.inl hm
    · simp [run]
      exact Or.inr (by simpa [run] using ih h)

/-! ### Behaviour of the retry loop for pure operations -/

theorem retryLoop_pure_succ (op : Nat → Except String α) (v : α) :
    ∀ (k attempt fuel : Nat), k < fuel →
      (∀ i, attempt ≤ i → i < attempt + k → ∃ e, op i = Except.error e) →
      op (attempt + k) = Except.ok v →
      (retryLoop (pureOp op) attempt fuel).result = some (Except.ok v) ∧
      (retryLoop (pureOp op) attempt fuel).log.length = k ∧
      (retryLoop (pureOp op) attempt fuel).calls = k + 1 := by
  intro k
  induction k with
  | zero =>
    intro attempt fuel hk hf hs
    cases fuel with
    | zero => exact absurd hk (by omega)
    | succ f =>
      have hs' : op attempt = Except.ok v := by simpa using hs
      simp [retryLoop, pureOp, hs']
  | succ k ih =>
    intro attempt fuel hk hf hs
    cases fuel with
    | zero => exact absurd hk (by omega)
    | succ f =>
      obtain ⟨e, he⟩ := hf attempt le_rfl (by omega)
      have hf' : ∀ i, attempt + 1 ≤ i → i < attempt + 1 + k →
          ∃ e, op i = Except.error e :=
        fun i h1 h2 => hf i (by omega) (by omega)
      have hs' : op (attempt + 1 + k) = Except.ok v := by
        rw [show attempt + 1 + k = attempt + (k + 1) by omega]
        exact hs
      have hf0 : f ≠ 0 := by omega
      obtain ⟨h1, h2, h3⟩ := ih (attempt + 1) f (by omega) hf' hs'
      refine ⟨?_, ?_, ?_⟩ <;>
        simp [retryLoop, pureOp, he, hf0, h1, h2, h3]

theorem retryLoop_pure_allfail (op : Nat → Except String α)
    (hf : ∀ i, ∃ e, op i = Except.error e) :
    ∀ (fuel attempt : Nat), 1 ≤ fuel →
      (retryLoop (pureOp op) attempt fuel).calls = fuel ∧
      (retryLoop (pureOp op) attempt fuel).log.length = fuel ∧
      ∀ e, op (attempt + fuel - 1) = Except.error e →
        (retryLoop (pureOp op) attempt fuel).result = some (Except.error e) := by
  intro fuel
  induction fuel with
  | zero => intro attempt h; exact absurd h (by omega)
  | succ f ih =>
    intro attempt _
    obtain ⟨e, he⟩ := hf attempt
    by_cases hf0 : f = 0
    · subst hf0
      refine ⟨?_, ?_, ?_⟩
      · simp [retryLoop, pureOp, he]
      · simp [retryLoop, pureOp, he]
      · intro e' he'
        have he'' : op attempt = Except.error e' := by simpa using he'
        simp [retryLoop, pureOp, he'']
    · obtain ⟨h1, h2, h3⟩ := ih (attempt + 1) (by omega)
      refine ⟨?_, ?_, ?_⟩
      · simp [retryLoop, pureOp, he, hf0, h1]
      · simp [retryLoop, pureOp, he, hf0, h2]
      · intro e' he'
        have he'' : op (attempt + 1 + f - 1) = Except.error e' := by
          rw [show attempt + 1 + f - 1 = attempt + (f + 1) - 1 by omega]
          exact he'
        simp [retryLoop, pureOp, he, hf0, h3 e' he'']

theorem singletonCalls_const (l : Logger) (fps : List String) :
    fps.foldl (fun st fp => (singletonCall st fp).1) (some l) = some l := by
  induction fps with
  | nil => rfl
  | cons f rest ih => simpa [singletonCall] using ih

/-! ### Claim theorems -/

/-- C1 (counterexample): running the batch `[0, 1, 13, 26, 5]` does NOT
yield an outcome containing 0: since `0 % 13 == 0`, the item 0 exhausts
both attempts and fails, so the outcome is exactly `[1, 25]` and 0 is
absent — contradicting the claimed `{0, 1, 25}`. -/
theorem run_demo_zero_absent :
    (run [0, 1, 13, 26, 5]).1 = [1, 25] ∧
    (0 : Int) ∉ (run [0, 1, 13, 26, 5]).1 := by
  refine ⟨?_, ?_⟩ <;> decide

/-- C1 (amended): running the batch on `items = [0, 1, 13, 26, 5]` with a
retry policy of maxAttempts = 2 yields a BatchOutcome containing exactly
`{1, 25}` (the squares of 1 and 5); 0, 13 and 26 are all divisible by 13,
contribute no result, and each produces exactly 2 failure log records
(one per attempt, both exhausted). -/
theorem run_demo_batch :
    (run [0, 1, 13, 26, 5]).1 = [1, 25] ∧
    ((run [0, 1, 13, 26, 5]).1.count 1 = 1 ∧
     (run [0, 1, 13, 26, 5]).1.count 25 = 1) ∧
    ((run [0, 1, 13, 26, 5]).1.count 0 = 0 ∧
     (run [0, 1, 13, 26, 5]).1.count (13 * 13) = 0 ∧
     (run [0, 1, 13, 26, 5]).1.count (26 * 26) = 0) ∧
    ((process 0).log.length = 2 ∧ (process 13).log.length = 2 ∧
     (process 26).log.length = 2) := by
  refine ⟨?_, ⟨?_, ?_⟩, ⟨?_, ?_, ?_⟩, ?_, ?_, ?_⟩ <;> decide

/-- C2: for every input sequence, the number of entries in the
BatchOutcome returned by `run` equals the count of submitted items not
divisible by 13, hence is at most the number of items; the empty input
yields the empty outcome. -/
theorem run_length_eq_count_not_div13 (values : List Int) :
    (run values).1.length = values.countP (fun v => decide (v % 13 ≠ 0)) ∧
    (run values).1.length ≤ values.length ∧
    (run ([] : List Int)).1 = [] := by
  have h : (run values).1.length
      = values.countP (fun v => decide (v % 13 ≠ 0)) := by
    rw [run_fst, List.length_map, List.countP_eq_length_filter]
  exact ⟨h, h ▸ List.countP_le_length _, rfl⟩

/-- C5 (counterexample): in the batch `[3, 3]` the item 3 is not
divisible by 13, yet `3 * 3 = 9` appears twice in the outcome, not
exactly once: duplicated items contribute one result each. -/
theorem run_square_not_unique :
    (3 : Int) ∈ ([3, 3] : List Int) ∧ (3 : Int) % 13 ≠ 0 ∧
    (run [3, 3]).1.count (3 * 3) ≠ 1 := by
  refine ⟨?_, ?_, ?_⟩ <;> decide

/-- C5 (amended): for every item `x` of the batch with `x` not divisible
by 13, the value `x * x` appears in the BatchOutcome, and its
multiplicity there equals the number of batch items `y` with
`y * y = x * x` and `y` not divisible by 13; in particular it appears
exactly once when `x` occurs once in the batch and no other item has the
same square. -/
theorem run_count_square (values : List Int) (x : Int) (hx : x ∈ values)
    (h13 : x % 13 ≠ 0) :
    (run values).1.count (x * x)
      = values.countP (fun y => decide (y * y = x * x) && decide (y % 13 ≠ 0)) ∧
    0 < (run values).1.count (x * x) := by
  have hcount : (run values).1.count (x * x)
      = values.countP (fun y => decide (y * y = x * x) && decide (y % 13 ≠ 0)) := by
    rw [run_fst, List.count_eq_countP, List.countP_map, List.countP_filter]
    refine List.countP_congr (fun y _ => ?_)
    simp [Function.comp]
  refine ⟨hcount, ?_⟩
  rw [hcount]
  refine List.countP_pos_iff.mpr ⟨x, hx, ?_⟩
  simp [h13]

/-- C5 witness: the amended statement instantiated at the batch `[3]`
and item 3. -/
theorem run_count_square_witness :
    ((3 : Int) ∈ ([3] : List Int) ∧ (3 : Int) % 13 ≠ 0) ∧
    ((run [3]).1.count (3 * 3)
        = ([3] : List Int).countP
            (fun y => decide (y * y = 3 * 3) && decide (y % 13 ≠ 0)) ∧
     0 < (run [3]).1.count (3 * 3)) :=
  ⟨⟨by decide, by decide⟩, run_count_square [3] 3 (by decide) (by decide)⟩

/-- C3: for every `N ≥ 1` and every operation failing on exactly its
first `k` invocations with `k < N` and succeeding on invocation `k + 1`,
the retry wrapper with `retries = N` returns the success value, writes
exactly `k` failure-attempt records, and invokes the operation exactly
`k + 1` times. -/
theorem retryExec_succeeds_after_k_failures (op : Nat → Except String Int)
    (v : Int) (N : Int) (k : Nat) (hN : 1 ≤ N) (hk : (k : Int) < N)
    (hf : ∀ i, 1 ≤ i → i ≤ k → ∃ e, op i = Except.error e)
    (hs : op (k + 1) = Except.ok v) :
    (retryExec op N).result = some (Except.ok v) ∧
    (retryExec op N).log.length = k ∧
    (retryExec op N).calls = k + 1 := by
  have hfuel : k < N.toNat := by omega
  have hf' : ∀ i, 1 ≤ i → i < 1 + k → ∃ e, op i = Except.error e :=
    fun i h1 h2 => hf i h1 (by omega)
  have hs' : op (1 + k) = Except.ok v := by rw [Nat.add_comm]; exact hs
  exact retryLoop_pure_succ op v k 1 N.toNat hfuel hf' hs'

/-- C3 witness: `opFailOnce` fails on attempt 1 only; with `retries = 2`
the wrapper returns `Except.ok 7` with one failure record and two
invocations. -/
theorem retryExec_succeeds_after_k_failures_witness :
    ((1 : Int) ≤ 2 ∧ ((1 : Nat) : Int) < 2 ∧
      (∀ i, 1 ≤ i → i ≤ 1 → ∃ e, opFailOnce i = Except.error e) ∧
      opFailOnce (1 + 1) = Except.ok 7) ∧
    ((retryExec opFailOnce 2).result = some (Except.ok 7) ∧
     (retryExec opFailOnce 2).log.length = 1 ∧
     (retryExec opFailOnce 2).calls = 1 + 1) :=
  ⟨⟨by decide, by decide,
    fun i _ h2 => ⟨"boom", by simp [opFailOnce, h2]⟩, rfl⟩,
   retryExec_succeeds_after_k_failures opFailOnce 7 2 1 (by decide) (by decide)
     (fun i _ h2 => ⟨"boom", by simp [opFailOnce, h2]⟩) rfl⟩

/-- C4: for every `N ≥ 1`, the retry wrapper around an operation failing
on every invocation, with `retries = N`, invokes the operation exactly
`N` times, writes exactly `N` failure records, and re-raises the final
attempt's failure (returns it as the execution's outcome). -/
theorem retryExec_allfail (op : Nat → Except String Int) (N : Int)
    (hN : 1 ≤ N) (hf : ∀ i, ∃ e, op i = Except.error e) :
    (retryExec op N).calls = N.toNat ∧
    (retryExec op N).log.length = N.toNat ∧
    ∀ e, op N.toNat = Except.error e →
      (retryExec op N).result = some (Except.error e) := by
  have h1 : 1 ≤ N.toNat := by omega
  have h := retryLoop_pure_allfail op hf N.toNat 1 h1
  rw [show 1 + N.toNat - 1 = N.toNat by omega] at h
  exact h

/-- C4 witness: `alwaysFailOp` with `retries = 1` — the maxAttempts = 1
edge case: exactly one invocation, one log record, and the failure
returned immediately. -/
theorem retryExec_allfail_witness :
    ((1 : Int) ≤ 1 ∧ (∀ i, ∃ e, alwaysFailOp i = Except.error e)) ∧
    ((retryExec alwaysFailOp 1).calls = (1 : Int).toNat ∧
     (retryExec alwaysFailOp 1).log.length = (1 : Int).toNat ∧
     (retryExec alwaysFailOp 1).result = some (Except.error "boom")) :=
  ⟨⟨by decide, fun i => ⟨"boom", rfl⟩⟩, by
    have h := retryExec_allfail alwaysFailOp 1 (by decide)
      (fun i => ⟨"boom", rfl⟩)
    exact ⟨h.1, h.2.1, h.2.2 "boom" rfl⟩⟩

/-- C9: a retry wrapper constructed with a non-positive `retries` runs
the loop body zero times: for every operation it returns `None`
(`result = none`, so no value and no re-raised exception), never invokes
the operation, and writes no log record. -/
theorem retryExec_nonpos (op : Nat → Except String Int) (retries : Int)
    (h : retries ≤ 0) :
    retryExec op retries = ⟨none, [], 0⟩ := by
  have h0 : retries.toNat = 0 := Int.toNat_of_nonpos h
  rw [retryExec, h0]
  rfl

/-- C9 witness: `retries = 0` with an operation that would succeed:
the operation is still never invoked and nothing is returned or
logged. -/
theorem retryExec_nonpos_witness :
    ((0 : Int) ≤ 0) ∧ retryExec opConst 0 = ⟨none, [], 0⟩ :=
  ⟨by decide, retryExec_nonpos opConst 0 (by decide)⟩

/-- C6: `run` never propagates a per-item failure to its caller: a
failing item's exception is caught inside the per-thread `task`, the
failure record is logged to the shared sink, the item contributes
nothing (`task`'s collected value is `none`), and the returned outcome
is exactly the squares of the non-failing items — independent of any
failures.  (`run` is a total function here; joining all threads before
returning is inherent to the sequential embedding.) -/
theorem run_total_catches_failures (values : List Int) (v : Int)
    (hv : v ∈ values) (hdiv : v % 13 = 0) :
    (task v).1 = none ∧
    failMsg v "Unlucky number!" ∈ (run values).2 ∧
    (run values).1 =
      (values.filter fun w => decide (w % 13 ≠ 0)).map fun w => w * w := by
  refine ⟨?_, ?_, run_fst values⟩
  · rw [task_of_div v hdiv]
  · refine mem_run_logs values v hv _ ?_
    rw [task_of_div v hdiv]
    simp

/-- C6 witness: the batch `[13]` with its failing item 13. -/
theorem run_total_catches_failures_witness :
    ((13 : Int) ∈ ([13] : List Int) ∧ (13 : Int) % 13 = 0) ∧
    ((task 13).1 = none ∧
     failMsg 13 "Unlucky number!" ∈ (run [13]).2 ∧
     (run [13]).1 =
       (([13] : List Int).filter fun w => decide (w % 13 ≠ 0)).map
         fun w => w * w) :=
  ⟨⟨by decide, by decide⟩,
   run_total_catches_failures [13] 13 (by decide) (by decide)⟩

/-- C7: every record appended through the logger is the single
newline-terminated line `<timestamp>: <message>` — provided neither the
timestamp (as `time.ctime()` output, captured at the time of the call
and passed here as a parameter) nor the message contains a newline, the
written text ends in `'\n'` and contains exactly one `'\n'`, i.e. it is
exactly one complete line. -/
theorem logLine_format (ts msg : String) (hts : '\n' ∉ ts.data)
    (hmsg : '\n' ∉ msg.data) :
    logLine ts msg = ts ++ ": " ++ msg ++ "\n" ∧
    (logLine ts msg).data.getLast? = some '\n' ∧
    (logLine ts msg).data.count '\n' = 1 := by
  have hd : (logLine ts msg).data
      = ts.data ++ [':', ' '] ++ msg.data ++ ['\n'] := by
    simp [logLine]
  refine ⟨rfl, ?_, ?_⟩
  · rw [hd, List.getLast?_concat]
  · rw [hd]
    simp [List.count_append, List.count_eq_zero.mpr hts,
      List.count_eq_zero.mpr hmsg]

/-- C7 witness: a concrete `time.ctime()`-shaped timestamp and a
concrete record message. -/
theorem logLine_format_witness :
    ('\n' ∉ ("Sun Oct 12 00:00:00 2025").data ∧
     '\n' ∉ ("Processed: 5").data) ∧
    (logLine "Sun Oct 12 00:00:00 2025" "Processed: 5"
        = "Sun Oct 12 00:00:00 2025" ++ ": " ++ "Processed: 5" ++ "\n" ∧
     (logLine "Sun Oct 12 00:00:00 2025" "Processed: 5").data.getLast?
        = some '\n' ∧
     (logLine "Sun Oct 12 00:00:00 2025" "Processed: 5").data.count '\n'
        = 1) :=
  ⟨⟨by decide, by decide⟩,
   logLine_format "Sun Oct 12 00:00:00 2025" "Processed: 5" (by decide)
     (by decide)⟩

/-- C10: after the first `Logger(fp)` construction, every later
construction call — whatever its argument — returns the identical first
instance, leaves the instance table unchanged, and the instance's
`filepath` (the target all records are appended to) stays the one given
at the first call. -/
theorem singleton_first_wins (fp : String) (fps : List String)
    (fp2 : String) :
    singletonCalls (fp :: fps) = some ⟨fp⟩ ∧
    (singletonCall (singletonCalls (fp :: fps)) fp2).2 = ⟨fp⟩ ∧
    (singletonCall (singletonCalls (fp :: fps)) fp2).1
      = singletonCalls (fp :: fps) ∧
    (singletonCall (singletonCalls (fp :: fps)) fp2).2.filepath = fp := by
  have h : singletonCalls (fp :: fps) = some ⟨fp⟩ := by
    rw [singletonCalls, List.foldl_cons]
    exact singletonCalls_const ⟨fp⟩ fps
  refine ⟨h, ?_, ?_, ?_⟩ <;> rw [h] <;> rfl

end Snipsage
